import Mathlib

/-! handyman: update ingestion and horoscope pipeline

A shallow embedding of `consumer/consumer.go`, `clients/telegram/types.go` and the
response-indexing tail of `clients/openai/client.go`.

Conventions of the embedding:

* Go `int64` / `int` values are `Int`; the one place where the code does arithmetic on
  them (`offset = update.ID + 1`) is wrapped to 64 bits by `wrapInt64`.
* Go pointers that may be `nil` are `Option`.
* Go strings are `String`, that is sequences of code points. The strings the consumer
  searches come out of `encoding/json`, which yields valid UTF-8, and on valid UTF-8
  the byte search of `strings.Contains` finds exactly the code-point occurrences.
* `time.Now()` is a number of seconds since the Unix epoch; the calendar date of an
  instant is computed by `civilFromDays`, the proleptic Gregorian calendar that
  package `time` implements.
* The HTTP clients are oracles collected in `World`; every call the code makes is
  recorded in a trace of `Call`s, in program order.
* A Go function ends in one of four ways, see `Outcome`.
-/

namespace Handyman

/-! ## Data model (`clients/telegram/types.go`) -/

/-- Go `error` values are kept abstract as their message. -/
abbrev Err := String

/-- Raw bytes (`[]byte`). -/
abbrev Bytes := List Nat

structure User where
  ID : Int
  FirstName : String
  LastName : String
  Username : String
deriving DecidableEq, Repr

structure Chat where
  ID : Int
  Type_ : String
deriving DecidableEq, Repr

structure Audio where
  Duration : Int
  FileName : String
  MimeType : String
  FileID : String
  FileUniqueID : String
  FileSize : Int
deriving DecidableEq, Repr

structure Message where
  ID : Int
  Text : String
  From : Option User
  Chat : Option Handyman.Chat
  Audio : Option Handyman.Audio
  CreatedAt : Int
deriving DecidableEq, Repr

structure Update where
  ID : Int
  Message : Option Handyman.Message
deriving DecidableEq, Repr

structure FileInfo where
  FileID : String
  FileUniqueID : String
  FileSize : Int
  FilePath : String
deriving DecidableEq, Repr

/-- The record `entities.Horoscope`; the code reads its fields `ZodiacSign` and `Content`. -/
structure Horoscope where
  ZodiacSign : String
  Content : String
deriving DecidableEq, Repr

/-! ## Decoded body of `POST /responses` (`clients/openai/client.go`, lines 70-83) -/

structure ContentItem where
  Type_ : String
  Annotations : List String
  Text : String
deriving DecidableEq, Repr

structure OutputItem where
  ID : String
  Type_ : String
  Status : String
  Content : List ContentItem
  Role : String
deriving DecidableEq, Repr

structure ResponsesResult where
  ID : String
  Output : List OutputItem
deriving DecidableEq, Repr

/-! ## Effects -/

/-- How a Go call ends: a normal return with `nil` error, a normal return with a
non-nil error, `log.Fatalf` (the process exits), or a run-time panic. -/
inductive Outcome (α : Type) where
  | ok (a : α)
  | error (e : Err)
  | fatal (msg : String)
  | panicked
deriving DecidableEq, Repr

/-- One call of an external client method, with its arguments; the last constructor
marks the one internal call the trace also records. -/
inductive Call where
  | GetUpdates (offset limit : Int)
  | GetFile (fileID : String)
  | DownloadFile (filePath : String)
  | TranscribeAudio (audioFileBytes : Bytes) (fileName : String)
  | GenerateResponse (instructions content : String)
  | ReplyMessage (chatID replyMessageID : Int) (text : String)
  /-- Not a client call: `processUpdate` entering `handleHoroscopeAudio`. -/
  | handleHoroscopeAudio (update : Update)
deriving DecidableEq, Repr

/-- The outside world as the consumer sees it at one moment: what each client method
answers, what `json.Unmarshal` makes of a text, and the wall clock. -/
structure World where
  /-- Answer of `telegram.Client.GetUpdates offset limit`. -/
  getUpdates : Int → Int → Except Err (List Update)
  /-- Answer of `telegram.Client.GetFile fileID`. -/
  getFile : String → Except Err FileInfo
  /-- Answer of `telegram.Client.DownloadFile filePath`. -/
  downloadFile : String → Except Err Bytes
  /-- Answer of `openai.Client.TranscribeAudio bytes fileName`. -/
  transcribeAudio : Bytes → String → Except Err String
  /-- What `openai.Client.GenerateResponse` has in hand at line 85: an error of one of
  the earlier steps, or the decoded response. -/
  responses : String → String → Except Err ResponsesResult
  /-- Answer of `telegram.Client.ReplyMessage`; `none` is the `nil` error. -/
  replyMessage : Int → Int → String → Option Err
  /-- Result of `json.Unmarshal` into `[]entities.Horoscope`. -/
  unmarshalHoroscopes : String → Except Err (List Horoscope)
  /-- Value of `time.Now()`, in seconds since the Unix epoch. -/
  now : Int

/-! ## `strings.Contains` -/

/-- Does `s` begin with `p`? -/
def startsWith : List Char → List Char → Bool
  | _, [] => true
  | [], _ :: _ => false
  | c :: s, p :: ps => c == p && startsWith s ps

/-- Search for `sub` at every position of `s`, left to right. -/
def containsChars : List Char → List Char → Bool
  | [], sub => startsWith [] sub
  | c :: s, sub => startsWith (c :: s) sub || containsChars s sub

/-- Go `strings.Contains s substr`: `substr` occurs in `s` as a contiguous run. -/
def Contains (s substr : String) : Bool :=
  containsChars s.toList substr.toList

/-! ## `time.Now().In(loc).Format("02.01.2006")` -/

/-- Civil date `(year, month, day)` of the day number `z` counted from 1970-01-01
in the proleptic Gregorian calendar. -/
def civilFromDays (z : Int) : Int × Int × Int :=
  let z := z + 719468
  let era := z / 146097
  let doe := z - era * 146097
  let yoe := (doe - doe / 1460 + doe / 36524 - doe / 146096) / 365
  let doy := doe - (365 * yoe + yoe / 4 - yoe / 100)
  let mp := (5 * doy + 2) / 153
  let d := doy - (153 * mp + 2) / 5 + 1
  let m := if mp < 10 then mp + 3 else mp - 9
  let y := yoe + era * 400
  (if m ≤ 2 then y + 1 else y, m, d)

/-- Go `appendInt x width`: decimal digits of `x`, padded with zeros on the left to
`width` digits, after a minus sign when `x` is negative. -/
def appendInt (x : Int) (width : Nat) : String :=
  let digits := (Nat.toDigits 10 x.natAbs)
  let padded := List.replicate (width - digits.length) '0' ++ digits
  String.mk (if x < 0 then '-' :: padded else padded)

/-- The layout `02.01.2006` applied to a civil date. -/
def formatDDMMYYYY (date : Int × Int × Int) : String :=
  appendInt date.2.2 2 ++ "." ++ appendInt date.2.1 2 ++ "." ++ appendInt date.1 4

/-- Offset of `time.FixedZone("UTC+07:00", 7*60*60)`, in seconds. -/
def locOffset : Int := 7 * 60 * 60

/-- The value `today.Format("02.01.2006")` for `today = time.Now().In(loc)`. -/
def todayString (now : Int) : String :=
  formatDDMMYYYY (civilFromDays ((now + locOffset) / 86400))

/-! ## `openai.Client.GenerateResponse`, from the decoded body on (lines 85-89) -/

/-- The tail of `GenerateResponse`: an error of the request or of the decoding is
returned; otherwise the text at `result.Output[0].Content[0]` is returned, and either
index expression panics when the slice it indexes is empty. -/
def generateResponseTail : Except Err ResponsesResult → Outcome String
  | .error e => .error e
  | .ok result =>
    match result.Output with
    | [] => .panicked
    | first :: _ =>
      match first.Content with
      | [] => .panicked
      | c :: _ => .ok c.Text

/-- The method `openai.Client.GenerateResponse instructions content`. -/
def GenerateResponse (w : World) (instructions content : String) : Outcome String :=
  generateResponseTail (w.responses instructions content)

/-! ## `consumer/consumer.go` -/

/-- The constant `prompt` of `handleHoroscopeAudio`. -/
def prompt : String :=
  "Твоя задача – выделить присланный текст в JSON формат.\n\n\tНе добавляй ничего лишнего, никакого Markdown, никаких пояснений.\n\tЧетко выделяй то, что содержится в аудио-транскрипции.\n\n\tКаждый элемент JSON должен содержать:\n\t- \"zodiac_sign\" - знак зодиака\n\t- \"content\" - гороскоп для знака зодиака\n\n\tИтоговый JSON должен содержать массив объектов, каждый из которых соответствует одному знаку зодиака.\n\n\tВыводи только те знаки зодиака, которые есть в списке ниже:\n\t- \"Овны\"\n\t- \"Девы\"\n\t- \"Скорпионы\"\n\t- \"Козероги\"\n\t- \"Рыбы\"\n\t"

/-- The filename tag tested by `handleHoroscopeAudio`. -/
def horoscopeTag : String := "Гороскоп"

/-- The text written for one entry: `fmt.Sprintf("<b>%s</b>: %s\n\n", ...)`. -/
def horoscopeEntry (h : Horoscope) : String :=
  "<b>" ++ h.ZodiacSign ++ "</b>: " ++ h.Content ++ "\n\n"

/-- The header: `fmt.Sprintf("Гороскоп на <b>%s</b>\n\n", today.Format("02.01.2006"))`. -/
def replyHeader (now : Int) : String :=
  "Гороскоп на <b>" ++ todayString now ++ "</b>\n\n"

/-- Lines 142-153: the `strings.Builder` is written to three times, the middle
write once per entry, and read back with `sb.String()`. -/
def renderReply (now : Int) (horoscopes : List Horoscope) : String :=
  let sb := ""
  let sb := sb ++ replyHeader now
  let sb := horoscopes.foldl (fun sb h => sb ++ horoscopeEntry h) sb
  let sb := sb ++ "#гороскоп #текстовыйгороскоп"
  sb

/-- The method `Consumer.handleHoroscopeAudio`: its outcome and the client calls it
made, in order. -/
def handleHoroscopeAudio (w : World) (update : Update) : Outcome Unit × List Call :=
  match update.Message with
  | none => (.panicked, [])
  | some message =>
  match message.Audio with
  | none => (.panicked, [])
  | some audio =>
  if !Contains audio.FileName horoscopeTag then (.ok (), []) else
  let t1 := [Call.GetFile audio.FileID]
  match w.getFile audio.FileID with
  | .error e => (.error e, t1)
  | .ok audioFileInfo =>
  let t2 := t1 ++ [Call.DownloadFile audioFileInfo.FilePath]
  match w.downloadFile audioFileInfo.FilePath with
  | .error e => (.error e, t2)
  | .ok audioFileBytes =>
  let t3 := t2 ++ [Call.TranscribeAudio audioFileBytes audio.FileName]
  match w.transcribeAudio audioFileBytes audio.FileName with
  | .error e => (.error e, t3)
  | .ok transcription =>
  let t4 := t3 ++ [Call.GenerateResponse prompt transcription]
  match GenerateResponse w prompt transcription with
  | .panicked => (.panicked, t4)
  | .fatal msg => (.fatal msg, t4)
  | .error e => (.fatal ("Error generating response: " ++ e), t4)
  | .ok horoscopesResponse =>
  match w.unmarshalHoroscopes horoscopesResponse with
  | .error e => (.fatal ("Error unmarshalling response: " ++ e), t4)
  | .ok horoscopes =>
  let text := renderReply w.now horoscopes
  match message.Chat with
  | none => (.panicked, t4)
  | some chat =>
  let t5 := t4 ++ [Call.ReplyMessage chat.ID message.ID text]
  match w.replyMessage chat.ID message.ID text with
  | some e => (.error e, t5)
  | none => (.ok (), t5)

/-- The method `Consumer.processUpdate` of a consumer with the given `targetChatID`;
the trace starts with a marker when the audio pipeline is entered. -/
def processUpdate (w : World) (targetChatID : Int) (update : Update) :
    Outcome Unit × List Call :=
  match update.Message with
  | none => (.ok (), [])
  | some message =>
  match message.Chat with
  | none => (.panicked, [])
  | some chat =>
  if chat.ID ≠ targetChatID then (.ok (), []) else
  match message.Audio with
  | some _ =>
    let r := handleHoroscopeAudio w update
    (r.1, Call.handleHoroscopeAudio update :: r.2)
  | none => (.ok (), [])

/-- The method `Consumer.fetchUpdates`: one `GetUpdates` call with limit 100. -/
def fetchUpdates (w : World) (offset : Int) : Except Err (List Update) × List Call :=
  match w.getUpdates offset 100 with
  | .error e => (.error e, [Call.GetUpdates offset 100])
  | .ok updates => (.ok updates, [Call.GetUpdates offset 100])

/-! ## `Consumer.Run` as a transition system -/

/-- Two's-complement wrap of a mathematical integer into `int64`. -/
def wrapInt64 (x : Int) : Int := (x + 2 ^ 63) % 2 ^ 64 - 2 ^ 63

/-- Line 49: `offset = update.ID + 1`. -/
def advance (update : Update) : Int := wrapInt64 (update.ID + 1)

/-- Capacity of `updatesChan` (line 31). -/
def chanCap : Nat := 100

inductive Status where
  | running
  | cancelled
  | exited
  | crashed
deriving DecidableEq, Repr

/-- State of one execution of `Run`. The first four fields are program state; the
last four only record history and are never read by a step. -/
structure RunState where
  /-- The poller's cursor `offset`. -/
  offset : Int
  /-- Updates of the current page that the poller's `for range` has still to send. -/
  ranging : List Update
  /-- Contents of `updatesChan`, oldest first. -/
  updatesChan : List Update
  status : Status
  /-- Every page fetched without error, in order of arrival. -/
  received : List (List Update)
  /-- Every update passed to `processUpdate`, in order. -/
  handed : List Update
  /-- Every client call made, in order. -/
  calls : List Call
  /-- Every line written with `log.Printf` or `log.Fatalf`. -/
  logs : List String
deriving DecidableEq, Repr

/-- The state on entry to the loops of `Run` (lines 31-32). -/
def RunState.init : RunState :=
  { offset := 0, ranging := [], updatesChan := [], status := .running,
    received := [], handed := [], calls := [], logs := [] }

/-- The atomic steps of the two loops. `tick` and `receive` carry the world as it is
while the step runs. -/
inductive Action where
  /-- The poller's `select` takes `<-ticker.C` and fetches a page (lines 41-45). -/
  | tick (w : World)
  /-- One iteration of the poller's `for range`: send, then move the cursor (lines 48-49). -/
  | send
  /-- The run loop's `select` takes an update from the channel and processes it (lines 59-63). -/
  | receive (w : World)
  /-- The context is cancelled and both loops return (lines 39-40, 57-58). -/
  | cancel

/-- One step of `Run` for a consumer with the given `targetChatID`. An action that is
not enabled (a tick while the poller is still sending, a send on a full channel or
with nothing to send, a receive on an empty channel, anything after the process
stopped) leaves the state as it is. -/
def step (targetChatID : Int) (a : Action) (s : RunState) : RunState :=
  match s.status with
  | .cancelled => s
  | .exited => s
  | .crashed => s
  | .running =>
  match a with
  | .cancel => { s with status := .cancelled }
  | .tick w =>
    match s.ranging with
    | _ :: _ => s
    | [] =>
      match fetchUpdates w s.offset with
      | (.error _, tr) => { s with calls := s.calls ++ tr }
      | (.ok updates, tr) =>
        { s with ranging := updates, received := s.received ++ [updates],
                 calls := s.calls ++ tr }
  | .send =>
    match s.ranging with
    | [] => s
    | update :: rest =>
      if s.updatesChan.length < chanCap then
        { s with updatesChan := s.updatesChan ++ [update], offset := advance update,
                 ranging := rest }
      else s
  | .receive w =>
    match s.updatesChan with
    | [] => s
    | update :: rest =>
      let s1 := { s with updatesChan := rest, handed := s.handed ++ [update] }
      match processUpdate w targetChatID update with
      | (.ok _, tr) => { s1 with calls := s1.calls ++ tr }
      | (.error e, tr) =>
        { s1 with calls := s1.calls ++ tr,
                  logs := s1.logs ++ ["Error processing update: " ++ e] }
      | (.fatal msg, tr) =>
        { s1 with calls := s1.calls ++ tr, logs := s1.logs ++ [msg], status := .exited }
      | (.panicked, tr) => { s1 with calls := s1.calls ++ tr, status := .crashed }

/-- Run a schedule of actions, first action first. -/
def run (targetChatID : Int) (schedule : List Action) (s : RunState) : RunState :=
  schedule.foldl (fun s a => step targetChatID a s) s

/-- Effect on the cursor of one poller cycle that fetched the page `updates`
(lines 47-50 with every send completing). -/
def pollCycle (offset : Int) (updates : List Update) : Int :=
  updates.foldl (fun _ update => advance update) offset

/-- The cursor after the poller, starting from 0, has gone through `pages`. -/
def cursorAfter (pages : List (List Update)) : Int :=
  pages.foldl pollCycle 0

/-- Is the call a `ReplyMessage`? -/
def Call.isReply : Call → Bool
  | .ReplyMessage _ _ _ => true
  | _ => false

/-- Is the call a `GenerateResponse`? -/
def Call.isGenerate : Call → Bool
  | .GenerateResponse _ _ => true
  | _ => false

/-! ## Concrete inputs used to exercise the definitions -/

def exampleChat : Chat := { ID := 7, Type_ := "supergroup" }

def exampleAudio : Audio :=
  { Duration := 120, FileName := "Июньский Гороскоп.mp3", MimeType := "audio/mpeg",
    FileID := "file-1", FileUniqueID := "uniq-1", FileSize := 4096 }

def exampleMessage : Message :=
  { ID := 42, Text := "", From := none, Chat := some exampleChat,
    Audio := some exampleAudio, CreatedAt := 1700000000 }

def exampleUpdate : Update := { ID := 1, Message := some exampleMessage }

def exampleHoroscopes : List Horoscope :=
  [{ ZodiacSign := "Овны", Content := "A" }, { ZodiacSign := "Рыбы", Content := "B" }]

def exampleFileInfo : FileInfo :=
  { FileID := "file-1", FileUniqueID := "uniq-1", FileSize := 4096,
    FilePath := "music/file_1.mp3" }

/-- A world in which every step of the pipeline succeeds. -/
def exampleWorld : World :=
  { getUpdates := fun _ _ => .ok [exampleUpdate]
    getFile := fun _ => .ok exampleFileInfo
    downloadFile := fun _ => .ok [73, 68, 51]
    transcribeAudio := fun _ _ => .ok "Овны. A. Рыбы. B."
    responses := fun _ _ =>
      .ok { ID := "resp_1",
            Output := [{ ID := "msg_1", Type_ := "message", Status := "completed",
                         Content := [{ Type_ := "output_text", Annotations := [],
                                       Text := "[entries]" }],
                         Role := "assistant" }] }
    replyMessage := fun _ _ _ => none
    unmarshalHoroscopes := fun _ => .ok exampleHoroscopes
    now := 1700000000 }

/-- A second update of the target chat, with a filename that lacks the tag. -/
def exampleUpdate2 : Update :=
  { ID := 2,
    Message := some { exampleMessage with
      ID := 43, Audio := some { exampleAudio with FileName := "Music.mp3" } } }

/-- The world `exampleWorld`, except that the source has two updates to deliver and
the generation request fails. -/
def generateFailsWorld : World :=
  { exampleWorld with
    getUpdates := fun _ _ => .ok [exampleUpdate, exampleUpdate2]
    responses := fun _ _ => .error "generate: 503" }

/-- The world `exampleWorld`, except that the source has two updates to deliver. -/
def twoUpdatesWorld : World :=
  { exampleWorld with getUpdates := fun _ _ => .ok [exampleUpdate, exampleUpdate2] }

/-- The world `exampleWorld`, except that the download fails. -/
def downloadFailsWorld : World :=
  { exampleWorld with downloadFile := fun _ => .error "download: 404" }

/-- A running loop with two updates waiting in the channel. -/
def exampleQueued : RunState :=
  { RunState.init with updatesChan := [exampleUpdate, exampleUpdate2] }

/-- One page that lists ID 5 before ID 3. -/
def outOfOrderPages : List (List Update) :=
  [[{ ID := 5, Message := none }, { ID := 3, Message := none }]]

/-- Three pages in ascending order of ID, the second one empty. -/
def ascendingPages : List (List Update) :=
  [[exampleUpdate, exampleUpdate2], [], [{ ID := 9, Message := none }]]

/-- The event IDs of all pages, in order of arrival. -/
def seenIDs (pages : List (List Update)) : List Int :=
  pages.flatten.map Update.ID

/-- The cursor as the specification words it: 0 while no event has been seen, and
otherwise one more than the largest event ID seen in any page. -/
def specCursor (pages : List (List Update)) : Int :=
  match seenIDs pages with
  | [] => 0
  | id :: ids => 1 + ids.foldl max id

/-- The queue invariant of `Run`: what was handed to `processUpdate`, then what waits
in the channel, then what the poller has still to send, is the concatenation of the
pages fetched; and the channel holds no more than its capacity. -/
def QueueInv (s : RunState) : Prop :=
  s.handed ++ s.updatesChan ++ s.ranging = s.received.flatten ∧
  s.updatesChan.length ≤ chanCap

/-- The cursor invariant of `Run`: the cursor is the one reached by going through
every update sent to the channel so far. -/
def CursorInv (s : RunState) : Prop :=
  s.offset = pollCycle 0 (s.handed ++ s.updatesChan)

end Handyman

namespace Handyman

/-! ## Lemmas on `strings.Contains` -/

theorem startsWith_iff (s p : List Char) :
    startsWith s p = true ↔ ∃ suf, s = p ++ suf := by
  induction p generalizing s with
  | nil => simp [startsWith]
  | cons a p ih =>
    cases s with
    | nil => simp [startsWith]
    | cons c s =>
      simp only [startsWith, Bool.and_eq_true, beq_iff_eq, ih, List.cons_append,
        List.cons.injEq]
      constructor
      · rintro ⟨rfl, suf, rfl⟩
        exact ⟨suf, rfl, rfl⟩
      · rintro ⟨suf, rfl, rfl⟩
        exact ⟨rfl, suf, rfl⟩

theorem containsChars_iff (s sub : List Char) :
    containsChars s sub = true ↔ ∃ pre suf, s = pre ++ sub ++ suf := by
  induction s with
  | nil =>
    simp only [containsChars, startsWith_iff]
    constructor
    · rintro ⟨suf, h⟩
      exact ⟨[], suf, by simpa using h⟩
    · rintro ⟨pre, suf, h⟩
      have h1 : pre ++ sub ++ suf = [] := h.symm
      simp only [List.append_eq_nil] at h1
      obtain ⟨⟨-, rfl⟩, rfl⟩ := h1
      exact ⟨[], rfl⟩
  | cons c s ih =>
    simp only [containsChars, Bool.or_eq_true, startsWith_iff, ih]
    constructor
    · rintro (⟨suf, h⟩ | ⟨pre, suf, h⟩)
      · exact ⟨[], suf, by simpa using h⟩
      · exact ⟨c :: pre, suf, by simp [h]⟩
    · rintro ⟨pre, suf, h⟩
      cases pre with
      | nil => exact Or.inl ⟨suf, by simpa using h⟩
      | cons a pre =>
        simp only [List.cons_append, List.cons.injEq] at h
        exact Or.inr ⟨pre, suf, h.2⟩

theorem Contains_iff (s substr : String) :
    Contains s substr = true ↔ ∃ pre suf : String, s = pre ++ substr ++ suf := by
  unfold Contains
  rw [containsChars_iff]
  constructor
  · rintro ⟨pre, suf, h⟩
    refine ⟨⟨pre⟩, ⟨suf⟩, ?_⟩
    apply String.ext
    simpa using h
  · rintro ⟨pre, suf, rfl⟩
    exact ⟨pre.toList, suf.toList, by simp⟩

/-! ## The filter chain of `processUpdate` -/

/-- When the three filters pass, `processUpdate` is the audio pipeline, preceded in
the trace by the marker of its call. -/
theorem processUpdate_dispatch (w : World) (targetChatID : Int) (update : Update)
    (message : Message) (chat : Chat) (audio : Audio)
    (hm : update.Message = some message) (hc : message.Chat = some chat)
    (ht : chat.ID = targetChatID) (ha : message.Audio = some audio) :
    processUpdate w targetChatID update =
      ((handleHoroscopeAudio w update).1,
        Call.handleHoroscopeAudio update :: (handleHoroscopeAudio w update).2) := by
  simp [processUpdate, hm, hc, ht, ha]

/-- C2. An update without a message, or with a message whose chat differs from the
target chat, makes `processUpdate` return the nil error with an empty trace: the audio
pipeline is not entered and no client is called. -/
theorem C2_filtered_update_is_noop (w : World) (targetChatID : Int) (update : Update)
    (h : update.Message = none ∨
      ∃ message chat, update.Message = some message ∧ message.Chat = some chat ∧
        chat.ID ≠ targetChatID) :
    processUpdate w targetChatID update = (Outcome.ok (), []) := by
  rcases h with h | ⟨message, chat, hm, hc, hne⟩
  · simp [processUpdate, h]
  · simp [processUpdate, hm, hc, hne]

theorem C2_filtered_update_is_noop_witness :
    processUpdate exampleWorld 8 exampleUpdate = (Outcome.ok (), []) ∧
    processUpdate exampleWorld 7 { ID := 2, Message := none } = (Outcome.ok (), []) :=
  ⟨C2_filtered_update_is_noop exampleWorld 8 exampleUpdate
      (Or.inr ⟨exampleMessage, exampleChat, rfl, rfl, by decide⟩),
   C2_filtered_update_is_noop exampleWorld 7 { ID := 2, Message := none } (Or.inl rfl)⟩

/-! ## The audio pipeline -/

/-- C5. When resolve and download succeed and `TranscribeAudio` fails, the pipeline
returns that error and its trace is exactly the three calls up to the failed
transcription: it holds no `GenerateResponse` and no `ReplyMessage`. -/
theorem C5_transcribe_failure_short_circuits (w : World) (update : Update)
    (message : Message) (audio : Audio) (audioFileInfo : FileInfo)
    (audioFileBytes : Bytes) (e : Err)
    (hm : update.Message = some message) (ha : message.Audio = some audio)
    (helig : Contains audio.FileName horoscopeTag = true)
    (hfile : w.getFile audio.FileID = .ok audioFileInfo)
    (hbytes : w.downloadFile audioFileInfo.FilePath = .ok audioFileBytes)
    (hfail : w.transcribeAudio audioFileBytes audio.FileName = .error e) :
    handleHoroscopeAudio w update =
      (Outcome.error e,
        [Call.GetFile audio.FileID, Call.DownloadFile audioFileInfo.FilePath,
         Call.TranscribeAudio audioFileBytes audio.FileName]) ∧
    (∀ c ∈ (handleHoroscopeAudio w update).2, c.isGenerate = false ∧ c.isReply = false) := by
  have h : handleHoroscopeAudio w update =
      (Outcome.error e,
        [Call.GetFile audio.FileID, Call.DownloadFile audioFileInfo.FilePath,
         Call.TranscribeAudio audioFileBytes audio.FileName]) := by
    simp [handleHoroscopeAudio, hm, ha, helig, hfile, hbytes, hfail]
  refine ⟨h, ?_⟩
  rw [h]
  intro c hc
  simp only [List.mem_cons, List.mem_singleton, List.not_mem_nil, or_false] at hc
  rcases hc with rfl | rfl | rfl <;> simp [Call.isGenerate, Call.isReply]

theorem C5_transcribe_failure_short_circuits_witness :
    handleHoroscopeAudio
        { exampleWorld with transcribeAudio := fun _ _ => .error "transcribe: 500" }
        exampleUpdate =
      (Outcome.error "transcribe: 500",
        [Call.GetFile "file-1", Call.DownloadFile "music/file_1.mp3",
         Call.TranscribeAudio [73, 68, 51] "Июньский Гороскоп.mp3"]) ∧
    (∀ c ∈ (handleHoroscopeAudio
        { exampleWorld with transcribeAudio := fun _ _ => .error "transcribe: 500" }
        exampleUpdate).2, c.isGenerate = false ∧ c.isReply = false) :=
  C5_transcribe_failure_short_circuits
    { exampleWorld with transcribeAudio := fun _ _ => .error "transcribe: 500" }
    exampleUpdate exampleMessage exampleAudio
    exampleFileInfo
    [73, 68, 51] "transcribe: 500" rfl rfl (by decide) rfl rfl rfl

/-- The trace of an eligible audio update starts with the resolve call. -/
theorem handleHoroscopeAudio_head_of_eligible (w : World) (update : Update)
    (message : Message) (audio : Audio)
    (hm : update.Message = some message) (ha : message.Audio = some audio)
    (helig : Contains audio.FileName horoscopeTag = true) :
    (handleHoroscopeAudio w update).2.head? = some (Call.GetFile audio.FileID) := by
  simp only [handleHoroscopeAudio, hm, ha, helig, Bool.not_true, Bool.false_eq_true,
    if_false]
  repeat' split
  all_goals simp

/-- An audio update whose filename lacks the tag is a no-op. -/
theorem handleHoroscopeAudio_of_not_eligible (w : World) (update : Update)
    (message : Message) (audio : Audio)
    (hm : update.Message = some message) (ha : message.Audio = some audio)
    (helig : Contains audio.FileName horoscopeTag = false) :
    handleHoroscopeAudio w update = (Outcome.ok (), []) := by
  simp [handleHoroscopeAudio, hm, ha, helig]

/-- C6. For an update that carries an audio attachment, the pipeline goes on to
resolve the file (its first call is `GetFile` with the attachment's file ID) exactly
when the filename is `pre ++ "Гороскоп" ++ suf` for some strings `pre`, `suf`; when it
is not, the pipeline returns the nil error and calls nothing. The comparison is by
characters, so a lower-case spelling does not match. -/
theorem C6_eligibility_is_substring_match (w : World) (update : Update)
    (message : Message) (audio : Audio)
    (hm : update.Message = some message) (ha : message.Audio = some audio) :
    ((handleHoroscopeAudio w update).2.head? = some (Call.GetFile audio.FileID) ↔
      ∃ pre suf : String, audio.FileName = pre ++ "Гороскоп" ++ suf) ∧
    ((¬ ∃ pre suf : String, audio.FileName = pre ++ "Гороскоп" ++ suf) →
      handleHoroscopeAudio w update = (Outcome.ok (), [])) ∧
    Contains "Июньский Гороскоп.mp3" horoscopeTag = true ∧
    Contains "Music.mp3" horoscopeTag = false ∧
    Contains "июньский гороскоп.mp3" horoscopeTag = false := by
  have key := Contains_iff audio.FileName horoscopeTag
  refine ⟨?_, ?_, by decide, by decide, by decide⟩
  · constructor
    · intro h
      by_cases helig : Contains audio.FileName horoscopeTag = true
      · exact key.mp helig
      · rw [handleHoroscopeAudio_of_not_eligible w update message audio hm ha
          (by simpa using helig)] at h
        simp at h
    · intro h
      exact handleHoroscopeAudio_head_of_eligible w update message audio hm ha (key.mpr h)
  · intro h
    apply handleHoroscopeAudio_of_not_eligible w update message audio hm ha
    cases hc : Contains audio.FileName horoscopeTag with
    | false => rfl
    | true => exact absurd (key.mp hc) h

theorem C6_eligibility_is_substring_match_witness :
    ((handleHoroscopeAudio exampleWorld exampleUpdate).2.head? =
        some (Call.GetFile exampleAudio.FileID) ↔
      ∃ pre suf : String, exampleAudio.FileName = pre ++ "Гороскоп" ++ suf) ∧
    ((¬ ∃ pre suf : String, exampleAudio.FileName = pre ++ "Гороскоп" ++ suf) →
      handleHoroscopeAudio exampleWorld exampleUpdate = (Outcome.ok (), [])) ∧
    Contains "Июньский Гороскоп.mp3" horoscopeTag = true ∧
    Contains "Music.mp3" horoscopeTag = false ∧
    Contains "июньский гороскоп.mp3" horoscopeTag = false :=
  C6_eligibility_is_substring_match exampleWorld exampleUpdate exampleMessage exampleAudio
    rfl rfl

/-- C7. When resolve, download, transcribe, generate and parse all succeed for an
eligible audio update, the trace is the four calls of those steps followed by one
`ReplyMessage` carrying the message's chat ID, the message's ID and the rendered
body; that is the only `ReplyMessage` of the trace, and the pipeline returns what
that call returned. -/
theorem C7_reply_once_with_rendered_body (w : World) (update : Update)
    (message : Message) (chat : Chat) (audio : Audio) (audioFileInfo : FileInfo)
    (audioFileBytes : Bytes) (transcription horoscopesResponse : String)
    (horoscopes : List Horoscope)
    (hm : update.Message = some message) (hc : message.Chat = some chat)
    (ha : message.Audio = some audio)
    (helig : Contains audio.FileName horoscopeTag = true)
    (hfile : w.getFile audio.FileID = .ok audioFileInfo)
    (hbytes : w.downloadFile audioFileInfo.FilePath = .ok audioFileBytes)
    (htext : w.transcribeAudio audioFileBytes audio.FileName = .ok transcription)
    (hgen : GenerateResponse w prompt transcription = .ok horoscopesResponse)
    (hparse : w.unmarshalHoroscopes horoscopesResponse = .ok horoscopes) :
    (handleHoroscopeAudio w update).2 =
      [Call.GetFile audio.FileID, Call.DownloadFile audioFileInfo.FilePath,
       Call.TranscribeAudio audioFileBytes audio.FileName,
       Call.GenerateResponse prompt transcription,
       Call.ReplyMessage chat.ID message.ID (renderReply w.now horoscopes)] ∧
    (handleHoroscopeAudio w update).2.filter Call.isReply =
      [Call.ReplyMessage chat.ID message.ID (renderReply w.now horoscopes)] ∧
    (handleHoroscopeAudio w update).1 =
      (match w.replyMessage chat.ID message.ID (renderReply w.now horoscopes) with
       | some e => Outcome.error e
       | none => Outcome.ok ()) := by
  cases hr : w.replyMessage chat.ID message.ID (renderReply w.now horoscopes) <;>
    simp [handleHoroscopeAudio, hm, hc, ha, helig, hfile, hbytes, htext, hgen, hparse, hr,
      Call.isReply]

theorem C7_reply_once_with_rendered_body_witness :
    (handleHoroscopeAudio exampleWorld exampleUpdate).2 =
      [Call.GetFile "file-1", Call.DownloadFile "music/file_1.mp3",
       Call.TranscribeAudio [73, 68, 51] "Июньский Гороскоп.mp3",
       Call.GenerateResponse prompt "Овны. A. Рыбы. B.",
       Call.ReplyMessage 7 42 (renderReply 1700000000 exampleHoroscopes)] ∧
    (handleHoroscopeAudio exampleWorld exampleUpdate).2.filter Call.isReply =
      [Call.ReplyMessage 7 42 (renderReply 1700000000 exampleHoroscopes)] ∧
    (handleHoroscopeAudio exampleWorld exampleUpdate).1 = Outcome.ok () :=
  C7_reply_once_with_rendered_body exampleWorld exampleUpdate exampleMessage exampleChat
    exampleAudio
    exampleFileInfo
    [73, 68, 51] "Овны. A. Рыбы. B." "[entries]" exampleHoroscopes
    rfl rfl rfl (by decide) rfl rfl rfl rfl rfl

/-! ## `GenerateResponse` -/

/-- C10, evaluated. A body that decodes with an empty `output` array, or with a first
output whose `content` array is empty, makes the index expression of line 89 panic. -/
theorem C10_empty_output_panics :
    generateResponseTail (.ok { ID := "resp_1", Output := [] }) = Outcome.panicked ∧
    generateResponseTail
      (.ok { ID := "resp_1",
             Output := [{ ID := "rs_1", Type_ := "reasoning", Status := "completed",
                          Content := [], Role := "" }] }) = Outcome.panicked ∧
    (handleHoroscopeAudio
        { exampleWorld with responses := fun _ _ => .ok { ID := "resp_1", Output := [] } }
        exampleUpdate).1 = Outcome.panicked := by
  refine ⟨rfl, rfl, ?_⟩
  decide

/-! ## Errors of the pipeline and the run loop -/

/-- The run loop on an update whose processing returns an error: the update is taken
off the channel, the error is logged, and the loop is still running. -/
theorem step_receive_of_error (w : World) (targetChatID : Int) (s : RunState)
    (update : Update) (rest : List Update) (e : Err) (tr : List Call)
    (hrun : s.status = .running) (hchan : s.updatesChan = update :: rest)
    (hp : processUpdate w targetChatID update = (Outcome.error e, tr)) :
    step targetChatID (.receive w) s =
      { s with updatesChan := rest, handed := s.handed ++ [update],
               calls := s.calls ++ tr,
               logs := s.logs ++ ["Error processing update: " ++ e] } := by
  simp [step, hrun, hchan, hp]

/-- The run loop on an update whose processing ends in `log.Fatalf`: the process
has exited. -/
theorem step_receive_of_fatal (w : World) (targetChatID : Int) (s : RunState)
    (update : Update) (rest : List Update) (msg : String) (tr : List Call)
    (hrun : s.status = .running) (hchan : s.updatesChan = update :: rest)
    (hp : processUpdate w targetChatID update = (Outcome.fatal msg, tr)) :
    step targetChatID (.receive w) s =
      { s with updatesChan := rest, handed := s.handed ++ [update],
               calls := s.calls ++ tr, logs := s.logs ++ [msg], status := .exited } := by
  simp [step, hrun, hchan, hp]

/-- C3, as stated, fails for the Generate step: with a failing `GenerateResponse` the
pipeline does not return the error but ends in `log.Fatalf`, and the run loop, which
had a second update waiting in the channel, never hands it to `processUpdate`. -/
theorem C3_generate_failure_not_returned :
    handleHoroscopeAudio generateFailsWorld exampleUpdate =
      (Outcome.fatal "Error generating response: generate: 503",
        [Call.GetFile "file-1", Call.DownloadFile "music/file_1.mp3",
         Call.TranscribeAudio [73, 68, 51] "Июньский Гороскоп.mp3",
         Call.GenerateResponse prompt "Овны. A. Рыбы. B."]) ∧
    (handleHoroscopeAudio generateFailsWorld exampleUpdate).1 ≠
      Outcome.error "generate: 503" ∧
    (run 7 [.tick generateFailsWorld, .send, .send, .receive generateFailsWorld,
            .receive generateFailsWorld] RunState.init).status = Status.exited ∧
    (run 7 [.tick generateFailsWorld, .send, .send, .receive generateFailsWorld,
            .receive generateFailsWorld] RunState.init).handed = [exampleUpdate] ∧
    (run 7 [.tick generateFailsWorld, .send, .send, .receive generateFailsWorld,
            .receive generateFailsWorld] RunState.init).updatesChan = [exampleUpdate2] ∧
    (run 7 [.tick generateFailsWorld, .send, .send, .receive generateFailsWorld,
            .receive generateFailsWorld] RunState.init).logs =
      ["Error generating response: generate: 503"] := by
  refine ⟨rfl, ?_, rfl, rfl, rfl, rfl⟩
  intro h
  have h2 : (handleHoroscopeAudio generateFailsWorld exampleUpdate).1 =
      Outcome.fatal "Error generating response: generate: 503" := rfl
  rw [h2] at h
  cases h

/-- C3, amended. For an eligible audio update of the target chat at the head of the
channel of a running loop: if `GetFile`, `DownloadFile`, `TranscribeAudio` or
`ReplyMessage` fails with `e` (every earlier step having succeeded), the pipeline
returns `e`, and the run loop logs it and is still running with the rest of the
channel; if `GenerateResponse` returns an error, the pipeline ends in `log.Fatalf`
and the process has exited. -/
theorem C3_io_errors_returned_generate_fatal (w : World) (targetChatID : Int)
    (s : RunState) (update : Update) (rest : List Update)
    (message : Message) (chat : Chat) (audio : Audio)
    (hm : update.Message = some message) (hc : message.Chat = some chat)
    (ht : chat.ID = targetChatID) (ha : message.Audio = some audio)
    (helig : Contains audio.FileName horoscopeTag = true)
    (hrun : s.status = .running) (hchan : s.updatesChan = update :: rest) :
    (∀ e : Err,
      (w.getFile audio.FileID = .error e ∨
       (∃ info, w.getFile audio.FileID = .ok info ∧
          w.downloadFile info.FilePath = .error e) ∨
       (∃ info bytes, w.getFile audio.FileID = .ok info ∧
          w.downloadFile info.FilePath = .ok bytes ∧
          w.transcribeAudio bytes audio.FileName = .error e) ∨
       (∃ info bytes text resp horoscopes, w.getFile audio.FileID = .ok info ∧
          w.downloadFile info.FilePath = .ok bytes ∧
          w.transcribeAudio bytes audio.FileName = .ok text ∧
          GenerateResponse w prompt text = .ok resp ∧
          w.unmarshalHoroscopes resp = .ok horoscopes ∧
          w.replyMessage chat.ID message.ID (renderReply w.now horoscopes) = some e)) →
      (handleHoroscopeAudio w update).1 = Outcome.error e ∧
      step targetChatID (.receive w) s =
        { s with updatesChan := rest, handed := s.handed ++ [update],
                 calls := s.calls ++ (processUpdate w targetChatID update).2,
                 logs := s.logs ++ ["Error processing update: " ++ e] }) ∧
    (∀ (e : Err) (info : FileInfo) (bytes : Bytes) (text : String),
      w.getFile audio.FileID = .ok info →
      w.downloadFile info.FilePath = .ok bytes →
      w.transcribeAudio bytes audio.FileName = .ok text →
      GenerateResponse w prompt text = .error e →
      (handleHoroscopeAudio w update).1 =
        Outcome.fatal ("Error generating response: " ++ e) ∧
      (step targetChatID (.receive w) s).status = Status.exited ∧
      (step targetChatID (.receive w) s).logs =
        s.logs ++ ["Error generating response: " ++ e]) := by
  have hd := processUpdate_dispatch w targetChatID update message chat audio hm hc ht ha
  constructor
  · intro e hfail
    have h1 : (handleHoroscopeAudio w update).1 = Outcome.error e := by
      rcases hfail with h | ⟨info, h1, h2⟩ | ⟨info, bytes, h1, h2, h3⟩ |
        ⟨info, bytes, text, resp, hs, h1, h2, h3, h4, h5, h6⟩
      · simp [handleHoroscopeAudio, hm, ha, helig, h]
      · simp [handleHoroscopeAudio, hm, ha, helig, h1, h2]
      · simp [handleHoroscopeAudio, hm, ha, helig, h1, h2, h3]
      · simp [handleHoroscopeAudio, hm, hc, ha, helig, h1, h2, h3, h4, h5, h6]
    refine ⟨h1, ?_⟩
    apply step_receive_of_error w targetChatID s update rest e _ hrun hchan
    rw [hd, h1]
  · intro e info bytes text h1 h2 h3 h4
    have hf : (handleHoroscopeAudio w update).1 =
        Outcome.fatal ("Error generating response: " ++ e) := by
      simp [handleHoroscopeAudio, hm, ha, helig, h1, h2, h3, h4]
    have hs := step_receive_of_fatal w targetChatID s update rest
      ("Error generating response: " ++ e)
      (Call.handleHoroscopeAudio update :: (handleHoroscopeAudio w update).2) hrun hchan
      (by rw [hd, hf])
    refine ⟨hf, ?_, ?_⟩ <;> rw [hs]

theorem C3_io_errors_returned_generate_fatal_witness :
    (handleHoroscopeAudio downloadFailsWorld exampleUpdate).1 =
      Outcome.error "download: 404" ∧
    (step 7 (.receive downloadFailsWorld) exampleQueued).logs =
      ["Error processing update: download: 404"] ∧
    (step 7 (.receive downloadFailsWorld) exampleQueued).status = Status.running ∧
    (step 7 (.receive downloadFailsWorld) exampleQueued).updatesChan = [exampleUpdate2] := by
  have h := (C3_io_errors_returned_generate_fatal downloadFailsWorld 7 exampleQueued
    exampleUpdate [exampleUpdate2] exampleMessage exampleChat exampleAudio
    rfl rfl rfl rfl (by decide) rfl rfl).1 "download: 404"
    (Or.inr (Or.inl ⟨exampleFileInfo, rfl, rfl⟩))
  refine ⟨h.1, ?_, ?_, ?_⟩ <;> rw [h.2] <;> rfl

/-! ## The poller -/

/-- C9. In a running loop whose poller is at its `select`, a tick whose fetch fails,
or returns an empty page, asks `GetUpdates` for `(offset, 100)`, leaves the cursor and
the channel as they were and leaves the poller with nothing to send; the tick after
it asks `GetUpdates` for the same `(offset, 100)`. -/
theorem C9_failed_or_empty_fetch_keeps_cursor (targetChatID : Int) (w w2 : World)
    (s : RunState) (hrun : s.status = .running) (hidle : s.ranging = [])
    (h : (∃ e, w.getUpdates s.offset 100 = .error e) ∨ w.getUpdates s.offset 100 = .ok []) :
    (step targetChatID (.tick w) s).offset = s.offset ∧
    (step targetChatID (.tick w) s).updatesChan = s.updatesChan ∧
    (step targetChatID (.tick w) s).ranging = [] ∧
    step targetChatID .send (step targetChatID (.tick w) s) = step targetChatID (.tick w) s ∧
    (step targetChatID (.tick w) s).calls = s.calls ++ [Call.GetUpdates s.offset 100] ∧
    (step targetChatID (.tick w2) (step targetChatID (.tick w) s)).calls =
      s.calls ++ [Call.GetUpdates s.offset 100, Call.GetUpdates s.offset 100] := by
  rcases h with ⟨e, he⟩ | he
  · have h1 : step targetChatID (.tick w) s =
        { s with calls := s.calls ++ [Call.GetUpdates s.offset 100] } := by
      simp [step, hrun, hidle, fetchUpdates, he]
    rw [h1]
    refine ⟨rfl, rfl, hidle, ?_, rfl, ?_⟩
    · simp [step, hrun, hidle]
    · cases h2 : w2.getUpdates s.offset 100 <;> simp [step, hrun, hidle, fetchUpdates, h2]
  · have h1 : step targetChatID (.tick w) s =
        { s with ranging := [], received := s.received ++ [[]],
                 calls := s.calls ++ [Call.GetUpdates s.offset 100] } := by
      simp [step, hrun, hidle, fetchUpdates, he]
    rw [h1]
    refine ⟨rfl, rfl, rfl, ?_, rfl, ?_⟩
    · simp [step, hrun]
    · cases h2 : w2.getUpdates s.offset 100 <;> simp [step, hrun, fetchUpdates, h2]

theorem C9_failed_or_empty_fetch_keeps_cursor_witness :
    (step 7 (.tick { exampleWorld with getUpdates := fun _ _ => .error "timeout" })
        { RunState.init with offset := 12 }).offset = 12 ∧
    (step 7 (.tick exampleWorld)
        (step 7 (.tick { exampleWorld with getUpdates := fun _ _ => .error "timeout" })
          { RunState.init with offset := 12 })).calls =
      [Call.GetUpdates 12 100, Call.GetUpdates 12 100] := by
  have h := C9_failed_or_empty_fetch_keeps_cursor 7
    { exampleWorld with getUpdates := fun _ _ => .error "timeout" } exampleWorld
    { RunState.init with offset := 12 } rfl rfl (Or.inl ⟨"timeout", rfl⟩)
  exact ⟨h.1, h.2.2.2.2.2⟩

/-! ## Rendering -/

/-- The date written in the header, checked against the calendar: the day changes at
17:00 UTC, which is midnight at UTC+7; 2000 and 2024 have a 29 February, 2023 and
2100 have none; instants before the epoch are handled. -/
theorem todayString_examples :
    todayString 0 = "01.01.1970" ∧
    todayString 61199 = "01.01.1970" ∧
    todayString 61200 = "02.01.1970" ∧
    todayString 946659600 = "01.01.2000" ∧
    todayString 951757200 = "29.02.2000" ∧
    todayString 951843600 = "01.03.2000" ∧
    todayString 1677603600 = "01.03.2023" ∧
    todayString 1700000000 = "15.11.2023" ∧
    todayString 1735664399 = "31.12.2024" ∧
    todayString 1735664400 = "01.01.2025" ∧
    todayString 4107517200 = "01.03.2100" ∧
    todayString (-1) = "01.01.1970" ∧
    todayString (-25201) = "31.12.1969" := by
  refine ⟨?_, ?_, ?_, ?_, ?_, ?_, ?_, ?_, ?_, ?_, ?_, ?_, ?_⟩ <;> decide

theorem foldl_append_eq_join (f : Horoscope → String) (hs : List Horoscope) (sb : String) :
    hs.foldl (fun sb h => sb ++ f h) sb = sb ++ String.join (hs.map f) := by
  induction hs generalizing sb with
  | nil => simp [String.join]
  | cons h hs ih =>
    rw [List.foldl_cons, ih, List.map_cons]
    have hj : ∀ (l : List String) (a : String),
        List.foldl (fun r s => r ++ s) a l = a ++ List.foldl (fun r s => r ++ s) "" l := by
      intro l
      induction l with
      | nil => intro a; simp
      | cons x l ihl =>
        intro a
        rw [List.foldl_cons, List.foldl_cons, ihl (a ++ x), ihl ("" ++ x)]
        simp [String.append_assoc]
    simp only [String.join, List.foldl_cons]
    rw [hj _ ("" ++ f h)]
    simp [String.append_assoc]

/-- C4, as stated, fails on the paragraphs: for the entries (Овны, A), (Рыбы, B) the
body written by the code carries each label inside bold markup, and neither
`Овны: A` nor `Рыбы: B` occurs anywhere in it. -/
theorem C4_paragraphs_carry_bold_markup :
    renderReply 1700000000 exampleHoroscopes =
      "Гороскоп на <b>15.11.2023</b>\n\n<b>Овны</b>: A\n\n<b>Рыбы</b>: B\n\n#гороскоп #текстовыйгороскоп" ∧
    Contains (renderReply 1700000000 exampleHoroscopes) "Овны: A" = false ∧
    Contains (renderReply 1700000000 exampleHoroscopes) "Рыбы: B" = false := by
  refine ⟨by decide, by decide, by decide⟩

/-- C4, amended. For every list of entries and every instant, the reply body is the
header `Гороскоп на <b>DD.MM.YYYY</b>` and a blank line, then for each entry in
input order the paragraph `<b>label</b>: content` and a blank line, then the two tags
`#гороскоп #текстовыйгороскоп`; the date is the civil date of the instant shifted by
7 hours, written as two-digit day, two-digit month and four-digit year. -/
theorem C4_reply_body_layout (now : Int) (horoscopes : List Horoscope) :
    renderReply now horoscopes =
      "Гороскоп на <b>" ++ todayString now ++ "</b>\n\n" ++
        String.join (horoscopes.map fun h =>
          "<b>" ++ h.ZodiacSign ++ "</b>: " ++ h.Content ++ "\n\n") ++
        "#гороскоп #текстовыйгороскоп" ∧
    todayString now =
      appendInt (civilFromDays ((now + 25200) / 86400)).2.2 2 ++ "." ++
        appendInt (civilFromDays ((now + 25200) / 86400)).2.1 2 ++ "." ++
        appendInt (civilFromDays ((now + 25200) / 86400)).1 4 ∧
    renderReply 1700000000
        [{ ZodiacSign := "Овны", Content := "A" }, { ZodiacSign := "Рыбы", Content := "B" }] =
      "Гороскоп на <b>15.11.2023</b>\n\n<b>Овны</b>: A\n\n<b>Рыбы</b>: B\n\n#гороскоп #текстовыйгороскоп" := by
  refine ⟨?_, rfl, by decide⟩
  have he : (fun h : Horoscope => "<b>" ++ h.ZodiacSign ++ "</b>: " ++ h.Content ++ "\n\n") =
      horoscopeEntry := rfl
  rw [he]
  unfold renderReply
  simp only [foldl_append_eq_join, replyHeader]
  simp [String.append_assoc]

/-! ## The cursor -/

theorem cursorAfter_eq_foldl (pages : List (List Update)) :
    cursorAfter pages = pages.flatten.foldl (fun _ update => advance update) 0 := by
  unfold cursorAfter
  rw [List.foldl_flatten]
  rfl

theorem foldl_advance_eq_last (l : List Update) (offset : Int) :
    l.foldl (fun _ update => advance update) offset =
      match l.getLast? with
      | none => offset
      | some update => advance update := by
  induction l generalizing offset with
  | nil => rfl
  | cons u t ih =>
    rw [List.foldl_cons, ih]
    cases t with
    | nil => rfl
    | cons v t =>
      rw [List.getLast?_cons_cons]
      cases h : (v :: t).getLast? with
      | none => simp at h
      | some x => rfl

theorem advance_eq (update : Update) (h0 : 0 ≤ update.ID) (h1 : update.ID < 2 ^ 63 - 1) :
    advance update = update.ID + 1 := by
  unfold advance wrapInt64
  norm_num at h1 ⊢
  omega

theorem le_foldl_max (l : List Int) (a : Int) : a ≤ l.foldl max a := by
  induction l generalizing a with
  | nil => exact le_refl a
  | cons b t ih => exact le_trans (le_max_left a b) (ih (max a b))

theorem foldl_advance_eq_max (t : List Update) (u : Update)
    (hsorted : ((u :: t).map Update.ID).Pairwise (· ≤ ·))
    (hrange : ∀ v ∈ u :: t, 0 ≤ v.ID ∧ v.ID < 2 ^ 63 - 1) :
    t.foldl (fun _ update => advance update) (advance u) =
      1 + (t.map Update.ID).foldl max u.ID := by
  induction t generalizing u with
  | nil =>
    have h := hrange u (List.mem_cons_self _ _)
    simp only [List.foldl_nil, List.map_nil]
    rw [advance_eq u h.1 h.2]
    ring
  | cons v t ih =>
    simp only [List.map_cons, List.pairwise_cons] at hsorted
    have huv : u.ID ≤ v.ID := hsorted.1 v.ID (List.mem_cons_self _ _)
    have hsorted2 : ((v :: t).map Update.ID).Pairwise (· ≤ ·) := by
      simpa using hsorted.2
    have hrange2 : ∀ x ∈ v :: t, 0 ≤ x.ID ∧ x.ID < 2 ^ 63 - 1 :=
      fun x hx => hrange x (List.mem_cons_of_mem _ hx)
    simp only [List.foldl_cons, List.map_cons]
    rw [ih v hsorted2 hrange2, max_eq_right huv]

theorem cursorAfter_eq_specCursor (pages : List (List Update))
    (hsorted : (seenIDs pages).Pairwise (· ≤ ·))
    (hrange : ∀ id ∈ seenIDs pages, 0 ≤ id ∧ id < 2 ^ 63 - 1) :
    cursorAfter pages = specCursor pages := by
  rw [cursorAfter_eq_foldl]
  unfold specCursor
  unfold seenIDs at hsorted hrange ⊢
  cases hl : pages.flatten with
  | nil => rfl
  | cons u t =>
    rw [hl] at hsorted hrange
    simp only [List.map_cons, List.foldl_cons]
    apply foldl_advance_eq_max t u hsorted
    intro v hv
    exact hrange v.ID (List.mem_map_of_mem _ hv)

theorem specCursor_mono (pre suf : List (List Update))
    (hrange : ∀ id ∈ seenIDs (pre ++ suf), 0 ≤ id) :
    specCursor pre ≤ specCursor (pre ++ suf) := by
  unfold specCursor
  unfold seenIDs at hrange ⊢
  rw [List.flatten_append, List.map_append] at hrange ⊢
  cases h1 : pre.flatten.map Update.ID with
  | nil =>
    cases h2 : suf.flatten.map Update.ID with
    | nil => simp
    | cons b t =>
      simp only [List.nil_append]
      have hb : 0 ≤ b := hrange b (by simp [h2])
      have := le_foldl_max t b
      omega
  | cons a t =>
    simp only [List.cons_append, List.foldl_append]
    have := le_foldl_max (suf.flatten.map Update.ID) (t.foldl max a)
    omega

/-- C1, as stated, fails: a page that lists ID 5 before ID 3 leaves the cursor at 4,
not at 1 + 5, and a later page holding only ID 3 moves the cursor from 6 back to 4. -/
theorem C1_cursor_follows_last_id :
    cursorAfter [[{ ID := 5, Message := none }, { ID := 3, Message := none }]] = 4 ∧
    specCursor [[{ ID := 5, Message := none }, { ID := 3, Message := none }]] = 6 ∧
    cursorAfter [[{ ID := 5, Message := none }]] = 6 ∧
    cursorAfter [[{ ID := 5, Message := none }], [{ ID := 3, Message := none }]] = 4 := by
  refine ⟨by decide, by decide, by decide, by decide⟩

/-- C1, amended. For every sequence of pages, with no condition on the IDs, the
cursor after the first `n` pages is one more (in `int64`) than the ID of the last
event of those pages, and 0 while they hold no event. If moreover the event IDs of
the pages arrive in non-decreasing order and lie in `[0, 2^63 - 1)`, then that value
is one more than the largest ID seen so far, and the cursor after `n + 1` pages is
not below the cursor after `n`. -/
theorem C1_cursor_is_last_id_plus_one (pages : List (List Update)) (n : Nat) :
    (cursorAfter (pages.take n) =
      match (pages.take n).flatten.getLast? with
      | none => 0
      | some update => wrapInt64 (update.ID + 1)) ∧
    ((seenIDs pages).Pairwise (· ≤ ·) →
      (∀ id ∈ seenIDs pages, 0 ≤ id ∧ id < 2 ^ 63 - 1) →
      cursorAfter (pages.take n) = specCursor (pages.take n) ∧
      cursorAfter (pages.take n) ≤ cursorAfter (pages.take (n + 1))) := by
  constructor
  · rw [cursorAfter_eq_foldl, foldl_advance_eq_last]
    rfl
  · intro hsorted hrange
    have hsub : ∀ k, ∃ suf, pages = pages.take k ++ suf :=
      fun k => ⟨pages.drop k, (List.take_append_drop k pages).symm⟩
    have hpre : ∀ k, (seenIDs (pages.take k)).Pairwise (· ≤ ·) ∧
        ∀ id ∈ seenIDs (pages.take k), 0 ≤ id ∧ id < 2 ^ 63 - 1 := by
      intro k
      obtain ⟨suf, hk⟩ := hsub k
      have hs : seenIDs pages = seenIDs (pages.take k) ++ seenIDs suf := by
        conv_lhs => rw [hk]
        simp [seenIDs]
      rw [hs] at hsorted hrange
      exact ⟨(List.pairwise_append.mp hsorted).1,
        fun id hid => hrange id (List.mem_append_left _ hid)⟩
    have heq : ∀ k, cursorAfter (pages.take k) = specCursor (pages.take k) :=
      fun k => cursorAfter_eq_specCursor _ (hpre k).1 (hpre k).2
    refine ⟨heq n, ?_⟩
    rw [heq n, heq (n + 1)]
    have ht : pages.take (n + 1) = pages.take n ++ (pages[n]?).toList := List.take_succ
    have := specCursor_mono (pages.take n) (pages[n]?).toList (by
      intro id hid
      rw [← ht] at hid
      exact ((hpre (n + 1)).2 id hid).1)
    rw [ht]
    exact this

theorem C1_cursor_is_last_id_plus_one_witness :
    (cursorAfter (outOfOrderPages.take 1) =
      match (outOfOrderPages.take 1).flatten.getLast? with
      | none => 0
      | some update => wrapInt64 (update.ID + 1)) ∧
    (cursorAfter (ascendingPages.take 2) = specCursor (ascendingPages.take 2) ∧
      cursorAfter (ascendingPages.take 2) ≤ cursorAfter (ascendingPages.take 3)) :=
  ⟨(C1_cursor_is_last_id_plus_one outOfOrderPages 1).1,
   (C1_cursor_is_last_id_plus_one ascendingPages 2).2 (by decide) (by decide)⟩

/-! ## The queue -/

theorem QueueInv_init : QueueInv RunState.init := by
  simp [QueueInv, RunState.init]

theorem QueueInv_step (targetChatID : Int) (a : Action) (s : RunState) (h : QueueInv s) :
    QueueInv (step targetChatID a s) := by
  obtain ⟨h1, h2⟩ := h
  unfold step
  cases hst : s.status with
  | cancelled => exact ⟨h1, h2⟩
  | exited => exact ⟨h1, h2⟩
  | crashed => exact ⟨h1, h2⟩
  | running =>
    cases a with
    | cancel => exact ⟨h1, h2⟩
    | tick w =>
      cases hr : s.ranging with
      | cons u t => exact ⟨h1, h2⟩
      | nil =>
        rw [hr] at h1
        simp only [fetchUpdates]
        cases w.getUpdates s.offset 100 with
        | error e => exact ⟨by simpa [hr] using h1, h2⟩
        | ok updates =>
          refine ⟨?_, h2⟩
          simp only [List.flatten_append, ← h1]
          simp
    | send =>
      cases hr : s.ranging with
      | nil => exact ⟨h1, h2⟩
      | cons u t =>
        rw [hr] at h1
        simp only
        split
        · next hlt =>
            refine ⟨?_, ?_⟩
            · simp only [← h1]
              simp
            · simp only [List.length_append, List.length_singleton]
              omega
        · exact ⟨by simpa [hr] using h1, h2⟩
    | receive w =>
      cases hc : s.updatesChan with
      | nil => exact ⟨h1, h2⟩
      | cons u t =>
        rw [hc] at h1 h2
        have hlen : t.length ≤ chanCap := by
          simp only [List.length_cons] at h2
          omega
        simp only
        split <;> exact ⟨by simpa using h1, hlen⟩

theorem QueueInv_run (targetChatID : Int) (schedule : List Action) (s : RunState)
    (h : QueueInv s) : QueueInv (run targetChatID schedule s) := by
  induction schedule generalizing s with
  | nil => exact h
  | cons a rest ih => exact ih _ (QueueInv_step targetChatID a s h)

/-- A run in which the poller fetches a page of two updates and the run loop takes
each as soon as it is sent: both are handed over in order, the first is answered,
the second enters the pipeline and is dropped for its filename, and the cursor ends
one past the second ID. -/
theorem run_example :
    (run 7 [.tick twoUpdatesWorld, .send, .receive twoUpdatesWorld, .send,
            .receive twoUpdatesWorld] RunState.init).handed = [exampleUpdate, exampleUpdate2] ∧
    (run 7 [.tick twoUpdatesWorld, .send, .receive twoUpdatesWorld, .send,
            .receive twoUpdatesWorld] RunState.init).offset = 3 ∧
    (run 7 [.tick twoUpdatesWorld, .send, .receive twoUpdatesWorld, .send,
            .receive twoUpdatesWorld] RunState.init).calls =
      [Call.GetUpdates 0 100, Call.handleHoroscopeAudio exampleUpdate,
       Call.GetFile "file-1", Call.DownloadFile "music/file_1.mp3",
       Call.TranscribeAudio [73, 68, 51] "Июньский Гороскоп.mp3",
       Call.GenerateResponse prompt "Овны. A. Рыбы. B.",
       Call.ReplyMessage 7 42 (renderReply 1700000000 exampleHoroscopes),
       Call.handleHoroscopeAudio exampleUpdate2] ∧
    (run 7 [.tick twoUpdatesWorld, .send, .receive twoUpdatesWorld, .send,
            .receive twoUpdatesWorld] RunState.init).status = Status.running :=
  ⟨rfl, rfl, rfl, rfl⟩

/-- C8. After any schedule of poller and run-loop steps from the initial state, the
updates handed to `processUpdate` are a prefix of the concatenation of the fetched
pages; more precisely that concatenation is the handed updates, then the channel
contents, then the updates the poller has still to send, so nothing is reordered,
duplicated or skipped; and the channel never holds more than 100 updates. -/
theorem C8_queue_preserves_order (targetChatID : Int) (schedule : List Action) :
    (run targetChatID schedule RunState.init).handed <+:
      (run targetChatID schedule RunState.init).received.flatten ∧
    (run targetChatID schedule RunState.init).handed ++
        (run targetChatID schedule RunState.init).updatesChan ++
        (run targetChatID schedule RunState.init).ranging =
      (run targetChatID schedule RunState.init).received.flatten ∧
    (run targetChatID schedule RunState.init).updatesChan.length ≤ 100 := by
  obtain ⟨h1, h2⟩ := QueueInv_run targetChatID schedule RunState.init QueueInv_init
  refine ⟨?_, h1, h2⟩
  rw [← h1, List.append_assoc]
  exact List.prefix_append _ _

/-! ## The cursor of `Run` is the cursor of `cursorAfter` -/

theorem CursorInv_step (targetChatID : Int) (a : Action) (s : RunState) (h : CursorInv s) :
    CursorInv (step targetChatID a s) := by
  unfold CursorInv at h ⊢
  unfold step
  cases hst : s.status with
  | cancelled => exact h
  | exited => exact h
  | crashed => exact h
  | running =>
    cases a with
    | cancel => exact h
    | tick w =>
      cases hr : s.ranging with
      | cons u t => exact h
      | nil =>
        simp only [fetchUpdates]
        cases w.getUpdates s.offset 100 <;> exact h
    | send =>
      cases hr : s.ranging with
      | nil => exact h
      | cons u t =>
        simp only
        split
        · simp [pollCycle, List.foldl_append]
        · exact h
    | receive w =>
      cases hc : s.updatesChan with
      | nil => exact h
      | cons u t =>
        rw [hc] at h
        simp only
        split <;> simpa using h

theorem CursorInv_run (targetChatID : Int) (schedule : List Action) (s : RunState)
    (h : CursorInv s) : CursorInv (run targetChatID schedule s) := by
  induction schedule generalizing s with
  | nil => exact h
  | cons a rest ih => exact ih _ (CursorInv_step targetChatID a s h)

/-- Whenever the poller of `Run` is back at its `select`, its cursor is
`cursorAfter` of the pages fetched so far. -/
theorem run_offset_eq_cursorAfter (targetChatID : Int) (schedule : List Action)
    (hidle : (run targetChatID schedule RunState.init).ranging = []) :
    (run targetChatID schedule RunState.init).offset =
      cursorAfter (run targetChatID schedule RunState.init).received := by
  have hc := CursorInv_run targetChatID schedule RunState.init rfl
  have hq := (QueueInv_run targetChatID schedule RunState.init QueueInv_init).1
  rw [hidle, List.append_nil] at hq
  rw [hc, hq, cursorAfter_eq_foldl]
  rfl

end Handyman
